import Mathlib

/-!
Verification of the user-account management backend (`user/views.py`).

The development shallowly embeds the four handlers of `UserSignView`
(sign-up POST, deactivation PUT, retrieval GET, edit PATCH is unused by the
claims) and `GoogleTokenView.post`.  The user store is a list of rows;
stateful handlers take the store and return it updated alongside the HTTP
response.  Validation schemas, the user model fields, the password hasher
and the session-token issuer live outside the reviewed source file, so they
are modelled from the specification and marked as such in their doc
comments.
-/

/-- Modelled from the spec: `user/models.py` is not in the reviewed source.
The User entity per §3 of the spec: id (unique, immutable), unique username,
unique email, one-way-hashed password, `is_active` flag, and a `logintype`
discriminator whose values are the strings "LOCAL" and "GOOGLE" (the code
compares `user.logintype != "GOOGLE"` on strings). -/
structure User where
  id : Nat
  username : String
  email : String
  password : String
  is_active : Bool
  logintype : String
deriving DecidableEq, Repr

/-- Modelled from the spec: serialized user representation returned by the
retrieval handler — the record with the password excluded (§4.1 Retrieve). -/
structure SerializedUser where
  id : Nat
  username : String
  email : String
  is_active : Bool
  logintype : String
deriving DecidableEq, Repr

/-- Serialization of a row for the retrieval response: every field except
the password hash. -/
def serializeUser (u : User) : SerializedUser :=
  ⟨u.id, u.username, u.email, u.is_active, u.logintype⟩

/-- Response bodies produced by the embedded handlers. -/
inductive Body where
  | message : String → Body
  | fieldErrors : List String → Body
  | userData : SerializedUser → Body
  | tokenPair : String → String → Body
deriving DecidableEq, Repr

/-- An HTTP response: numeric status code plus body. -/
structure Response where
  status : Nat
  body : Body
deriving DecidableEq, Repr

/-- The user store: the rows of the user table, in insertion order. -/
abbrev Store := List User

/-- Lookup by primary key, as in `get_object_or_404(User, id=...)` and
`User.objects.get(id=...)`. -/
def findById (db : Store) (i : Nat) : Option User :=
  db.find? fun u => u.id == i

/-- Lookup by email, as in `User.objects.get(email=email)` at
`views.py:166` and `get_object_or_404(User, email=email)` at `views.py:176`. -/
def findByEmail (db : Store) (e : String) : Option User :=
  db.find? fun u => u.email == e

/-- Modelled from the spec: the password hasher is library functionality
(django), out of the reviewed source.  The spec (§3) only requires a one-way
hash; the embedding tags the raw password with a scheme prefix. -/
def hashPw (p : String) : String :=
  "pbkdf2$" ++ p

/-- Modelled from the spec: password verification against the stored hash,
as performed by the sign-out validation schema (§4.1 Deactivate). -/
def checkPassword (supplied stored : String) : Bool :=
  hashPw supplied == stored

/-- Next primary key for an inserted row: one past the largest id in use. -/
def nextId (db : Store) : Nat :=
  (db.foldr (fun u m => max u.id m) 0) + 1

/-- Saving a fetched-and-mutated row, as `user.save()` does: the row with
the saved object's id is replaced by the saved object. -/
def updateUser (db : Store) (u : User) : Store :=
  db.map fun v => if v.id == u.id then u else v

/-- The row as written back by the deactivation handler (`views.py:62`):
`is_active` set to `False`, every other field untouched. -/
def deactivate (u : User) : User :=
  ⟨u.id, u.username, u.email, u.password, false, u.logintype⟩

/-- Sign-up request body: `{username, email, password, password2}`. -/
structure SignUpData where
  username : String
  email : String
  password : String
  password2 : String
deriving DecidableEq, Repr

/-- Modelled from the spec: `UserSerializer` (in `user/serializers.py`, not
in the reviewed source) validation for sign-up — password/confirmation
match (§8) and uniqueness of username and email across all rows (§3
invariants, §8).  Returns the list of failing fields; valid means empty. -/
def userSerializerErrors (db : Store) (d : SignUpData) : List String :=
  (if d.password ≠ d.password2 then ["password2"] else []) ++
  (if db.any (fun u => u.username == d.username) then ["username"] else []) ++
  (if db.any (fun u => u.email == d.email) then ["email"] else [])

/-- Modelled from the spec: `UserSerializer.save()` — persists a new active,
local-login user with the hashed password (§4.1 Create, §3 lifecycle). -/
def userSerializerSave (db : Store) (d : SignUpData) : Store :=
  db ++ [⟨nextId db, d.username, d.email, hashPw d.password, true, "LOCAL"⟩]

/-- Sign-up handler `UserSignView.post` (`views.py:30-44`): validate, on
success save and answer 201, otherwise answer 400 with the field errors. -/
def userSignPost (db : Store) (d : SignUpData) : Response × Store :=
  if userSerializerErrors db d = [] then
    (⟨201, Body.message "회원가입성공"⟩, userSerializerSave db d)
  else
    (⟨400, Body.fieldErrors (userSerializerErrors db d)⟩, db)

/-- Deactivation handler `UserSignView.put` (`views.py:46-65`): fetch the
caller's row (404 when absent), validate the supplied password against the
stored hash via `UserSignOutSerializer` (modelled from the spec, §4.1
Deactivate), on success write back the row with `is_active = False` and
answer 200, otherwise answer 400 with the validation errors. -/
def userSignPut (db : Store) (callerId : Nat) (password : String) : Response × Store :=
  match findById db callerId with
  | none => (⟨404, Body.message "Not found."⟩, db)
  | some user =>
    if checkPassword password user.password then
      (⟨200, Body.message "회원탈퇴성공"⟩, updateUser db (deactivate user))
    else
      (⟨400, Body.fieldErrors ["password"]⟩, db)

/-- Retrieval of a row by an optional key: `get_object_or_404(User, id=k)`
where the key may be `None` (an anonymous caller's id) — no row carries a
null id, so a null key answers 404. -/
def retrieveById (db : Store) (key : Option Nat) : Response :=
  match key with
  | none => ⟨404, Body.message "Not found."⟩
  | some i =>
    match findById db i with
    | none => ⟨404, Body.message "Not found."⟩
    | some u => ⟨200, Body.userData (serializeUser u)⟩

/-- Lookup key chosen by `UserSignView.get` (`views.py:81`):
`user_id if user_id else request.user.id`.  Python truthiness makes both a
missing `user_id` and the integer 0 fall back to the caller's own id, which
is `None` for an anonymous caller. -/
def getLookupKey (user_id : Option Nat) (callerId : Option Nat) : Option Nat :=
  match user_id with
  | some n => if n = 0 then callerId else some n
  | none => callerId

/-- Retrieval handler `UserSignView.get` (`views.py:67-84`): resolve the
lookup key, fetch the row (404 when it does not resolve), answer 200 with
the serialized record. -/
def userSignGet (db : Store) (user_id : Option Nat) (callerId : Option Nat) : Response :=
  retrieveById db (getLookupKey user_id callerId)

/-- Username synthesized by the Google exchange (`views.py:162`):
`email.split("@")[0] + "_g"` — the part of the email before the first `@`
(the whole email when it has no `@`), with `_g` appended. -/
def synthUsername (email : String) : String :=
  String.mk (email.data.takeWhile fun c => c ≠ '@') ++ "_g"

/-- Modelled from the spec: `GoogleUserSerializer` (in
`user/serializers.py`, not in the reviewed source) validation for
auto-provisioning — uniqueness of username and email across all rows (§3
invariants).  Returns the list of failing fields; valid means empty. -/
def googleUserErrors (db : Store) (email username : String) : List String :=
  (if db.any (fun u => u.username == username) then ["username"] else []) ++
  (if db.any (fun u => u.email == email) then ["email"] else [])

/-- Modelled from the spec: `GoogleUserSerializer.save()` — persists a new
active user with `logintype = GOOGLE`, the synthesized username and the
hashed placeholder password (§4.2 step 4, §3 invariants). -/
def googleUserSave (db : Store) (email username password : String) : Store :=
  db ++ [⟨nextId db, username, email, hashPw password, true, "GOOGLE"⟩]

/-- Modelled from the spec: a session token as minted by the library
(`RefreshToken.for_user` plus the claim assignments at `views.py:183-185`)
— a claim set carrying the user id, email, username and logintype. -/
structure Token where
  user_id : Nat
  email : String
  username : String
  logintype : String
deriving DecidableEq, Repr

/-- Modelled from the spec: rendering a token to its signed string form
(`str(refresh)`, `str(refresh.access_token)`); the claims are embedded in
the string, and the string is never empty. -/
def renderToken (kind : String) (t : Token) : String :=
  kind ++ ("." ++ toString t.user_id ++ "." ++ t.email ++ "." ++ t.username ++ "." ++ t.logintype)

/-- Tail of the Google exchange (`views.py:177-192`): reject with 400 when
the resolved user's logintype is not GOOGLE, otherwise mint the refresh
token, set the email/username/logintype claims, and answer 200 with the
rendered refresh and access tokens. -/
def googleIssue (user : User) (db : Store) : Response × Store :=
  if user.logintype ≠ "GOOGLE" then
    (⟨400, Body.message "소셜 로그인 이메일이 아닙니다."⟩, db)
  else
    (⟨200, Body.tokenPair
        (renderToken "refresh" ⟨user.id, user.email, user.username, user.logintype⟩)
        (renderToken "access" ⟨user.id, user.email, user.username, user.logintype⟩)⟩,
      db)

/-- Google exchange handler `GoogleTokenView.post` (`views.py:138-192`).
`access_token` is the optional field of the request body; `provider` maps a
bearer token to the optional `email` field of the identity-provider
response (the outbound HTTP call at `views.py:153-157`).  401 without a
token; 401 when the provider response has no email; otherwise look up the
user by email, auto-provisioning on absence (provisioning-validation
failure answers the errors with the default 200 status, `views.py:174`);
finally the logintype check and token minting of `googleIssue`. -/
def googleTokenPost (access_token : Option String)
    (provider : String → Option String) (db : Store) : Response × Store :=
  match access_token with
  | none => (⟨401, Body.message "토큰이 없습니다."⟩, db)
  | some tok =>
    match provider tok with
    | none => (⟨401, Body.message "유저정보에 접근할 수 없습니다."⟩, db)
    | some email =>
      match findByEmail db email with
      | some user => googleIssue user db
      | none =>
        if googleUserErrors db email (synthUsername email) = [] then
          match findByEmail (googleUserSave db email (synthUsername email) "0000") email with
          | none => (⟨404, Body.message "Not found."⟩,
              googleUserSave db email (synthUsername email) "0000")
          | some user => googleIssue user (googleUserSave db email (synthUsername email) "0000")
        else
          (⟨200, Body.fieldErrors (googleUserErrors db email (synthUsername email))⟩, db)

/-- Sample row used by concrete witnesses: a local-password account whose
username happens to be of the `_g` shape. -/
def bobLocalRow : User := ⟨1, "bob_g", "bob@y.com", hashPw "pw", true, "LOCAL"⟩

/-- Sample row used by concrete witnesses: an ordinary local account. -/
def annLocalRow : User := ⟨1, "ann", "ann@x.com", hashPw "pw", true, "LOCAL"⟩

theorem String_append_ne_empty (a b : String) (h : a.data ≠ []) : a ++ b ≠ "" := by
  intro hc
  apply h
  have h2 := congrArg String.data hc
  rw [String.data_append] at h2
  exact (List.append_eq_nil.mp h2).1

theorem String_mk_data (s : String) : String.mk s.data = s := by
  cases s
  rfl

theorem findByEmail_append_single (db : Store) (e : String) (u : User)
    (hf : findByEmail db e = none) (hu : (u.email == e) = true) :
    findByEmail (db ++ [u]) e = some u := by
  rw [findByEmail, List.find?_append]
  rw [findByEmail] at hf
  rw [hf]
  simp [List.find?, hu]

theorem findById_updateUser (db : Store) (cid : Nat) (u w : User)
    (hid : w.id = u.id) (hf : findById db cid = some u) :
    findById (updateUser db w) cid = some w := by
  rw [findById, updateUser, List.find?_map]
  have hpf : ((fun v : User => v.id == cid) ∘ fun v : User => if v.id == w.id then w else v)
      = fun v : User => v.id == cid := by
    funext v
    by_cases h : (v.id == w.id) = true
    · have hv : v.id = w.id := by simpa using h
      simp [Function.comp, h, hv]
    · simp [Function.comp, h]
  rw [hpf]
  rw [findById] at hf
  rw [hf]
  simp [hid]

/-- C8: a Google exchange request whose body has no `access_token` field is
answered 401 unauthorized; the response does not depend on the identity
provider (no call is made) nor on the store contents, and the store is
returned unchanged. -/
theorem C8_missing_access_token (provider : String → Option String) (db : Store) :
    googleTokenPost none provider db = (⟨401, Body.message "토큰이 없습니다."⟩, db) := rfl

/-- C9: the username synthesized by the Google exchange is the part of the
email before the first `@` with `_g` appended; in particular, for an email
containing no `@`, it is the whole email with `_g` appended. -/
theorem C9_username_synthesis (email : String) :
    synthUsername email = String.mk (email.data.takeWhile fun c => c ≠ '@') ++ "_g" ∧
    ('@' ∉ email.data → synthUsername email = email ++ "_g") := by
  constructor
  · rfl
  · intro h
    have ht : email.data.takeWhile (fun c => decide (c ≠ '@')) = email.data :=
      List.takeWhile_eq_self_iff.mpr fun x hx => by
        simp only [decide_eq_true_eq]
        intro hc
        exact h (hc ▸ hx)
    rw [synthUsername, ht, String_mk_data]

/-- C9 witness: an email with no `@` keeps its whole text in the synthesized
username. -/
theorem C9_witness : synthUsername "bobx.com" = "bobx.com" ++ "_g" :=
  (C9_username_synthesis "bobx.com").2 (by decide)

/-- C10: a retrieval request with no identifier from an anonymous caller
resolves to the null lookup key and is answered 404; no user record is ever
returned. -/
theorem C10_anonymous_self_retrieve (db : Store) :
    getLookupKey none none = none ∧
    userSignGet db none none = ⟨404, Body.message "Not found."⟩ :=
  ⟨rfl, rfl⟩

/-- C2: a Google exchange that resolves by email to a user whose logintype
is not GOOGLE is answered 400 with a message body (no tokens), and the
store is returned unchanged. -/
theorem C2_non_google_account (db : Store) (tok email : String)
    (provider : String → Option String) (u : User)
    (hp : provider tok = some email)
    (hf : findByEmail db email = some u)
    (hl : u.logintype ≠ "GOOGLE") :
    googleTokenPost (some tok) provider db =
      (⟨400, Body.message "소셜 로그인 이메일이 아닙니다."⟩, db) := by
  simp [googleTokenPost, hp, hf, googleIssue, hl]

/-- C2 witness: the login-type check at a concrete local-account store. -/
theorem C2_witness :
    googleTokenPost (some "t") (fun _ => some "ann@x.com") [annLocalRow] =
      (⟨400, Body.message "소셜 로그인 이메일이 아닙니다."⟩, [annLocalRow]) :=
  C2_non_google_account [annLocalRow] "t" "ann@x.com" (fun _ => some "ann@x.com")
    annLocalRow rfl rfl (by decide)

/-- C3: a Google exchange whose auto-provisioning validation fails is
answered with the validation errors under the success status 200, no tokens
are issued, and the store is returned unchanged. -/
theorem C3_provisioning_validation_failure (db : Store) (tok email : String)
    (provider : String → Option String)
    (hp : provider tok = some email)
    (hf : findByEmail db email = none)
    (he : googleUserErrors db email (synthUsername email) ≠ []) :
    googleTokenPost (some tok) provider db =
      (⟨200, Body.fieldErrors (googleUserErrors db email (synthUsername email))⟩, db) := by
  simp [googleTokenPost, hp, hf, he]

/-- C3 witness: provisioning for `bob@x.com` against a store already owning
the username `bob_g` answers the errors with status 200. -/
theorem C3_witness :
    googleTokenPost (some "t") (fun _ => some "bob@x.com") [bobLocalRow] =
      (⟨200, Body.fieldErrors ["username"]⟩, [bobLocalRow]) :=
  C3_provisioning_validation_failure [bobLocalRow] "t" "bob@x.com"
    (fun _ => some "bob@x.com") rfl rfl (by decide)

/-- C5: a deactivation request whose supplied password does not match the
stored hash is answered 400 with validation errors and the store is
returned unchanged (in particular `is_active` is untouched). -/
theorem C5_wrong_password (db : Store) (cid : Nat) (pw : String) (u : User)
    (hf : findById db cid = some u)
    (hc : checkPassword pw u.password = false) :
    userSignPut db cid pw = (⟨400, Body.fieldErrors ["password"]⟩, db) := by
  simp [userSignPut, hf, hc]

/-- C5 witness: a wrong password at a concrete one-row store. -/
theorem C5_witness :
    userSignPut [annLocalRow] 1 "bad" = (⟨400, Body.fieldErrors ["password"]⟩, [annLocalRow]) :=
  C5_wrong_password [annLocalRow] 1 "bad" annLocalRow rfl (by decide)

/-- C4: a deactivation request by a caller whose row exists and whose
password matches the stored hash answers 200 with the success message and
writes back the row with `is_active = False`; the written row differs from
the old one in no field but `is_active`, the row is still found afterwards,
no row is removed, and every other row is unchanged. -/
theorem C4_deactivation_success (db : Store) (cid : Nat) (pw : String) (u : User)
    (hf : findById db cid = some u)
    (hc : checkPassword pw u.password = true) :
    userSignPut db cid pw =
      (⟨200, Body.message "회원탈퇴성공"⟩, updateUser db (deactivate u)) ∧
    deactivate u = ⟨u.id, u.username, u.email, u.password, false, u.logintype⟩ ∧
    findById (userSignPut db cid pw).2 cid = some (deactivate u) ∧
    (userSignPut db cid pw).2.length = db.length ∧
    (∀ v ∈ (userSignPut db cid pw).2, v ∈ db ∨ v = deactivate u) := by
  have h1 : userSignPut db cid pw =
      (⟨200, Body.message "회원탈퇴성공"⟩, updateUser db (deactivate u)) := by
    simp [userSignPut, hf, hc]
  refine ⟨h1, rfl, ?_, ?_, ?_⟩
  · rw [h1]
    exact findById_updateUser db cid u (deactivate u) rfl hf
  · rw [h1]
    exact List.length_map _ _
  · rw [h1]
    intro v hv
    rcases List.mem_map.mp hv with ⟨w, hw, hwv⟩
    by_cases hb : (w.id == (deactivate u).id) = true
    · right
      rw [← hwv]
      simp [hb]
    · left
      rw [← hwv]
      simpa [hb] using hw

/-- C4 witness: deactivating the only row with the right password. -/
theorem C4_witness :
    userSignPut [bobLocalRow] 1 "pw" =
      (⟨200, Body.message "회원탈퇴성공"⟩, updateUser [bobLocalRow] (deactivate bobLocalRow)) ∧
    findById (userSignPut [bobLocalRow] 1 "pw").2 1 = some (deactivate bobLocalRow) :=
  ⟨(C4_deactivation_success [bobLocalRow] 1 "pw" bobLocalRow rfl (by decide)).1,
    (C4_deactivation_success [bobLocalRow] 1 "pw" bobLocalRow rfl (by decide)).2.2.1⟩

/-- C6: sign-up with a valid input (password/confirmation match and unique
username/email) persists exactly one new active local-login row and answers
201 with the success message; an invalid input answers 400 with the field
errors and the store is returned unchanged; a password/confirmation
mismatch is always invalid. -/
theorem C6_signup (db : Store) (d : SignUpData) :
    (d.password ≠ d.password2 → userSerializerErrors db d ≠ []) ∧
    (userSerializerErrors db d = [] →
      userSignPost db d =
        (⟨201, Body.message "회원가입성공"⟩,
          db ++ [⟨nextId db, d.username, d.email, hashPw d.password, true, "LOCAL"⟩])) ∧
    (userSerializerErrors db d ≠ [] →
      userSignPost db d = (⟨400, Body.fieldErrors (userSerializerErrors db d)⟩, db)) := by
  refine ⟨?_, ?_, ?_⟩
  · intro hm
    simp [userSerializerErrors, hm]
  · intro h
    simp [userSignPost, h, userSerializerSave]
  · intro h
    simp [userSignPost, h]

/-- C6 witness: the example sign-up from the spec creates the row and
answers 201. -/
theorem C6_witness :
    userSignPost [] ⟨"ann", "ann@x.com", "Pw123!", "Pw123!"⟩ =
      (⟨201, Body.message "회원가입성공"⟩,
        [⟨1, "ann", "ann@x.com", hashPw "Pw123!", true, "LOCAL"⟩]) :=
  (C6_signup [] ⟨"ann", "ann@x.com", "Pw123!", "Pw123!"⟩).2.1 rfl

/-- C7 counterexample: a supplied identifier 0 does not resolve to any row,
yet the handler answers 200 with the caller's own record rather than 404 —
Python truthiness makes `user_id if user_id else request.user.id` treat the
identifier 0 as absent. -/
theorem C7_counterexample :
    findById [bobLocalRow] 0 = none ∧
    userSignGet [bobLocalRow] (some 0) (some 1) =
      ⟨200, Body.userData (serializeUser bobLocalRow)⟩ :=
  ⟨rfl, rfl⟩

/-- C7 (amended): a supplied nonzero identifier selects that user's record;
an absent or zero identifier falls back to the caller's own id; a lookup
key that does not resolve (including the anonymous caller's null id) is
answered 404 regardless of the caller's authentication state; a resolving
key is answered 200 with the serialized record. -/
theorem C7_retrieve (db : Store) (user_id callerId : Option Nat) (n : Nat) (u : User) :
    (user_id = some n → n ≠ 0 →
      userSignGet db user_id callerId = retrieveById db (some n)) ∧
    ((user_id = none ∨ user_id = some 0) →
      userSignGet db user_id callerId = retrieveById db callerId) ∧
    (findById db n = none → retrieveById db (some n) = ⟨404, Body.message "Not found."⟩) ∧
    (findById db n = some u →
      retrieveById db (some n) = ⟨200, Body.userData (serializeUser u)⟩) ∧
    retrieveById db none = ⟨404, Body.message "Not found."⟩ := by
  refine ⟨?_, ?_, ?_, ?_, rfl⟩
  · intro hs hn
    subst hs
    simp [userSignGet, getLookupKey, hn]
  · intro hs
    rcases hs with hs | hs
    · subst hs
      rfl
    · subst hs
      rfl
  · intro h
    simp [retrieveById, h]
  · intro h
    simp [retrieveById, h]

/-- C7 witness: a nonzero identifier absent from the store is answered 404
for an anonymous caller. -/
theorem C7_witness :
    userSignGet [bobLocalRow] (some 2) none = ⟨404, Body.message "Not found."⟩ :=
  ((C7_retrieve [bobLocalRow] (some 2) none 2 bobLocalRow).1 rfl (by decide)).trans
    ((C7_retrieve [bobLocalRow] (some 2) none 2 bobLocalRow).2.2.1 rfl)

/-- C1 counterexample: the identity-provider email `bob@x.com` has no
existing row, yet no new row is provisioned and no tokens are returned: the
synthesized username `bob_g` is already taken by a local account, so the
provisioning validation fails and the handler answers the errors instead. -/
theorem C1_counterexample :
    findByEmail [bobLocalRow] "bob@x.com" = none ∧
    (googleTokenPost (some "t") (fun _ => some "bob@x.com") [bobLocalRow]).2 =
      [bobLocalRow] ∧
    (googleTokenPost (some "t") (fun _ => some "bob@x.com") [bobLocalRow]).1 =
      ⟨200, Body.fieldErrors ["username"]⟩ :=
  ⟨rfl, rfl, rfl⟩

/-- C1 (amended): a Google exchange whose identity-provider email has no
existing row, and whose provisioning validation succeeds (in particular the
synthesized username is not already taken), appends exactly one new row —
username `<local-part>_g`, the hashed fixed placeholder password `0000`,
active, logintype GOOGLE — and answers 200 with a refresh and an access
token, both non-empty and both rendered from a claim set carrying exactly
that user's email, username and logintype. -/
theorem C1_google_first_login (db : Store) (tok email : String)
    (provider : String → Option String)
    (hp : provider tok = some email)
    (hf : findByEmail db email = none)
    (he : googleUserErrors db email (synthUsername email) = []) :
    (googleTokenPost (some tok) provider db).2 =
      db ++ [⟨nextId db, synthUsername email, email, hashPw "0000", true, "GOOGLE"⟩] ∧
    (googleTokenPost (some tok) provider db).1.status = 200 ∧
    (googleTokenPost (some tok) provider db).1.body =
      Body.tokenPair
        (renderToken "refresh" ⟨nextId db, email, synthUsername email, "GOOGLE"⟩)
        (renderToken "access" ⟨nextId db, email, synthUsername email, "GOOGLE"⟩) ∧
    renderToken "refresh" ⟨nextId db, email, synthUsername email, "GOOGLE"⟩ ≠ "" ∧
    renderToken "access" ⟨nextId db, email, synthUsername email, "GOOGLE"⟩ ≠ "" := by
  have hfind : findByEmail (googleUserSave db email (synthUsername email) "0000") email =
      some ⟨nextId db, synthUsername email, email, hashPw "0000", true, "GOOGLE"⟩ := by
    apply findByEmail_append_single db email _ hf
    simp
  have hmain : googleTokenPost (some tok) provider db =
      (⟨200, Body.tokenPair
          (renderToken "refresh" ⟨nextId db, email, synthUsername email, "GOOGLE"⟩)
          (renderToken "access" ⟨nextId db, email, synthUsername email, "GOOGLE"⟩)⟩,
        db ++ [⟨nextId db, synthUsername email, email, hashPw "0000", true, "GOOGLE"⟩]) := by
    simp only [googleTokenPost, hp, hf, he, if_pos]
    rw [hfind]
    simp [googleIssue, googleUserSave]
  refine ⟨?_, ?_, ?_, ?_, ?_⟩
  · rw [hmain]
  · rw [hmain]
  · rw [hmain]
  · exact String_append_ne_empty "refresh" _ (by decide)
  · exact String_append_ne_empty "access" _ (by decide)

/-- C1 witness: first Google login of `bob@x.com` against the empty store
provisions the row and answers 200 with the token pair. -/
theorem C1_witness :
    (googleTokenPost (some "t") (fun _ => some "bob@x.com") []).2 =
      [⟨1, "bob_g", "bob@x.com", hashPw "0000", true, "GOOGLE"⟩] ∧
    (googleTokenPost (some "t") (fun _ => some "bob@x.com") []).1.status = 200 ∧
    (googleTokenPost (some "t") (fun _ => some "bob@x.com") []).1.body =
      Body.tokenPair
        (renderToken "refresh" ⟨1, "bob@x.com", "bob_g", "GOOGLE"⟩)
        (renderToken "access" ⟨1, "bob@x.com", "bob_g", "GOOGLE"⟩) :=
  ⟨(C1_google_first_login [] "t" "bob@x.com" (fun _ => some "bob@x.com") rfl rfl rfl).1,
    (C1_google_first_login [] "t" "bob@x.com" (fun _ => some "bob@x.com") rfl rfl rfl).2.1,
    (C1_google_first_login [] "t" "bob@x.com" (fun _ => some "bob@x.com") rfl rfl rfl).2.2.1⟩
